import Mathlib

/-!
Verification of the retrieval-evaluation harness in
`Module3_RAG/eval_retrieval.py`.

The Python module is shallowly embedded: documents and queries are plain
structures, the vector store and the cross-encoder are an abstract `Backend`
of pure functions, file contents are `Option String`, JSON parsing is an
abstract parse function, exceptions are `Except`, and Python floats are
modelled as rationals.  Retrieval-backend invocations are recorded in an
explicit trace so that "no retrieval occurred" / "the re-ranker was never
invoked" are statable.
-/

namespace EvalRetrieval

/-- A retrieved document: `page_content` plus the two metadata entries the
evaluator reads (`metadata.get("doc_type", "unknown")`,
`metadata.get("source", "")`); `none` models an absent metadata key. -/
structure Doc where
  page_content : String
  doc_type : Option String
  source : Option String
deriving Repr, DecidableEq

/-- A raw query object from the JSON eval file.  Every field is optional,
mirroring a Python dict: `none` models an absent key; `q["f"]` raises
`KeyError` on `none` while `q.get("f")` yields `None`. -/
structure RawQuery where
  id : Option String
  question : Option String
  expected_doc_type : Option String
  expected_source_basenames : Option (List String)
  expected_source_basename : Option String
deriving Repr, DecidableEq

/-- One record of the detail log (the dict appended to `details`). -/
structure Detail where
  id : String
  question : String
  expected_doc_type : Option String
  expected_source_basenames : List String
  retrieved_doc_types : List String
  retrieved_sources : List String
  doc_type_hit : Bool
  file_hit : Bool
  file_rank : Option Nat
  rank_score : ℚ
deriving Repr, DecidableEq

/-- The aggregate metrics dict. -/
structure Metrics where
  num_queries : Nat
  hit_at_k_doc_type : ℚ
  avg_rank_score : ℚ
deriving Repr, DecidableEq

deriving instance DecidableEq for Except

/-- Failure of `load_eval_queries`: the file is absent or not valid JSON. -/
inductive DataFormatError where
  | fileNotFound
  | invalidJson
deriving Repr, DecidableEq

/-- An unhandled exception of the evaluation run. -/
inductive EvalError where
  | dataFormat (e : DataFormatError)
  | keyError (key : String)
deriving Repr, DecidableEq

/-- Backend invocations made during a run.  `search q n` is a FAISS
similarity search (`vectorstore.similarity_search(q, k=n)`, also the
retriever used when re-ranking is off); `rerank q` is a call of the
cross-encoder (`reranker.predict`). -/
inductive TraceEvent where
  | search (question : String) (k : Nat)
  | rerank (question : String)
deriving Repr, DecidableEq

/-- The external collaborators: similarity search over the vector index and
the cross-encoder scores for (question, page_content) pairs. -/
structure Backend where
  similaritySearch : String → Nat → List Doc
  rerankScores : String → List Doc → List ℚ

/-- `os.path.basename` for POSIX paths: the suffix after the last `/`
(the whole string when it has no `/`, empty for trailing `/`). -/
def basename (s : String) : String :=
  String.mk
    (s.data.foldl (fun acc c => if c = '/' then [] else acc ++ [c]) [])

/-- `load_eval_queries`: open the file and `json.load` it.  An absent file
or invalid JSON raises; there is no further schema validation. -/
def load_eval_queries (file : Option String)
    (parse : String → Option (List RawQuery)) :
    Except DataFormatError (List RawQuery) :=
  match file with
  | none => .error .fileNotFound
  | some s =>
    match parse s with
    | none => .error .invalidJson
    | some qs => .ok qs

/-- `expected_basenames = q.get("expected_source_basenames") or []`,
then the backward-compat merge of `expected_source_basename`: appended iff
it is truthy (non-empty) and not already a member. -/
def mergeBasenames (q : RawQuery) : List String :=
  let expected := q.expected_source_basenames.getD []
  match q.expected_source_basename with
  | none => expected
  | some s =>
    if s ≠ "" ∧ ¬ expected.contains s then expected ++ [s] else expected

/-- `[d.metadata.get("doc_type", "unknown") for d in top_docs]`. -/
def retrievedTypes (docs : List Doc) : List String :=
  docs.map (fun d => d.doc_type.getD "unknown")

/-- `[d.metadata.get("source", "") for d in top_docs]`. -/
def retrievedSources (docs : List Doc) : List String :=
  docs.map (fun d => d.source.getD "")

/-- The doc-type hit test:
`if expected_doc_type and expected_doc_type in retrieved_types`. -/
def typeHit (expected : Option String) (types : List String) : Bool :=
  match expected with
  | none => false
  | some t => t ≠ "" && types.contains t

/-- The file-match positions: indices of retrieved sources that are
non-empty and whose basename is a member of `expected_basenames`. -/
def matchPositions (expected : List String) (sources : List String) :
    List Nat :=
  ((sources.enum).filter
    (fun p => p.2 ≠ "" && expected.contains (basename p.2))).map (·.1)

/-- The file-level score (lines 106-122): `(file_hit, file_rank, rank_score)`.
When `expected_basenames` is non-empty and a match exists, `file_rank` is the
minimum match position and `rank_score = (k - file_rank) / k`; otherwise
everything stays at its initial value. -/
def scoreFile (k : Nat) (expected : List String) (sources : List String) :
    Bool × Option Nat × ℚ :=
  if expected.isEmpty then (false, none, 0)
  else
    match (matchPositions expected sources).min? with
    | none => (false, none, 0)
    | some r => (true, some r, ((k : ℚ) - r) / k)

/-- Stable insertion, descending by re-ranker score: the element being
inserted originates earlier, so it passes elements with a strictly larger
score and stops before the first element whose score it matches or exceeds.
Models `scored_docs.sort(key=lambda x: x[1], reverse=True)` (Python's sort
is stable). -/
def insertDesc (p : Doc × ℚ) : List (Doc × ℚ) → List (Doc × ℚ)
  | [] => [p]
  | q :: rest =>
    if q.2 ≤ p.2 then p :: q :: rest else q :: insertDesc p rest

/-- Stable descending sort by score. -/
def sortDesc : List (Doc × ℚ) → List (Doc × ℚ)
  | [] => []
  | p :: rest => insertDesc p (sortDesc rest)

/-- Build the detail dict and the per-query contributions for a query whose
`top_docs` are known (lines 96-139).  Accessing `q["id"]` raises `KeyError`
when the key is absent. -/
def finishQuery (q : RawQuery) (question : String) (k : Nat)
    (top_docs : List Doc) : Except EvalError Detail :=
  let retrieved_types := retrievedTypes top_docs
  let retrieved_sources := retrievedSources top_docs
  let t_hit := typeHit q.expected_doc_type retrieved_types
  let s := scoreFile k (mergeBasenames q) retrieved_sources
  match q.id with
  | none => .error (.keyError "id")
  | some i =>
    .ok
      { id := i
        question := question
        expected_doc_type := q.expected_doc_type
        expected_source_basenames := mergeBasenames q
        retrieved_doc_types := retrieved_types
        retrieved_sources := retrieved_sources
        doc_type_hit := t_hit
        file_hit := s.1
        file_rank := s.2.1
        rank_score := s.2.2 }

/-- One iteration of the query loop (lines 55-139): field access, legacy
merge, retrieval (with the zero-document short-circuit in the re-rank
branch), scoring, and the detail record.  The trace lists backend calls in
order. -/
def processQuery (B : Backend) (k pre_k : Nat) (rerank : Bool)
    (q : RawQuery) : Except EvalError Detail × List TraceEvent :=
  match q.question with
  | none => (.error (.keyError "question"), [])
  | some question =>
    if rerank then
      let docs := B.similaritySearch question pre_k
      if docs.isEmpty then
        match q.id with
        | none => (.error (.keyError "id"), [.search question pre_k])
        | some i =>
          (.ok
            { id := i
              question := question
              expected_doc_type := q.expected_doc_type
              expected_source_basenames := mergeBasenames q
              retrieved_doc_types := []
              retrieved_sources := []
              doc_type_hit := false
              file_hit := false
              file_rank := none
              rank_score := 0 }, [.search question pre_k])
      else
        let scores := B.rerankScores question docs
        let scored_docs := docs.zip scores
        let top_docs := (sortDesc scored_docs).take k |>.map (·.1)
        (finishQuery q question k top_docs,
          [.search question pre_k, .rerank question])
    else
      let top_docs := B.similaritySearch question k
      (finishQuery q question k top_docs, [.search question k])

/-- The running state of the loop: `doc_type_hits`, `rank_scores`,
`details`.  The Python increments `doc_type_hits` exactly when the
detail's `type_hit` is true and appends exactly the detail's `rank_score`,
so the state is advanced from the detail record. -/
structure LoopState where
  doc_type_hits : Nat
  rank_scores : List ℚ
  details : List Detail
deriving Repr, DecidableEq

/-- `st` advanced by one query's outcome `d`. -/
def LoopState.push (st : LoopState) (d : Detail) : LoopState :=
  { doc_type_hits := st.doc_type_hits + (if d.doc_type_hit then 1 else 0)
    rank_scores := st.rank_scores ++ [d.rank_score]
    details := st.details ++ [d] }

/-- The query loop: strictly sequential, no per-query recovery — the first
raised `KeyError` aborts the run.  Returns the final state (or the error)
and the concatenated backend trace. -/
def runQueries (B : Backend) (k pre_k : Nat) (rerank : Bool) :
    List RawQuery → LoopState → Except EvalError LoopState × List TraceEvent
  | [], st => (.ok st, [])
  | q :: qs, st =>
    match processQuery B k pre_k rerank q with
    | (.error e, tr) => (.error e, tr)
    | (.ok d, tr) =>
      let r := runQueries B k pre_k rerank qs (st.push d)
      (r.1, tr ++ r.2)

/-- The `pre_k` adjustment of lines 38-40: when re-ranking is requested
with `pre_k < k`, the effective `pre_k` is silently raised to `k`. -/
def effPreK (k pre_k : Nat) (rerank : Bool) : Nat :=
  if rerank ∧ pre_k < k then k else pre_k

/-- `evaluate_metrics`: adjust `pre_k` when re-ranking, load the queries
(an absent or unparsable file aborts before any backend call), run the
loop, then aggregate, guarding both divisions against `total = 0`. -/
def evaluate_metrics (B : Backend) (file : Option String)
    (parse : String → Option (List RawQuery)) (k : Nat) (rerank : Bool)
    (pre_k : Nat) :
    Except EvalError (Metrics × List Detail) × List TraceEvent :=
  let pre_k := effPreK k pre_k rerank
  match load_eval_queries file parse with
  | .error e => (.error (.dataFormat e), [])
  | .ok queries =>
    let total := queries.length
    match runQueries B k pre_k rerank queries ⟨0, [], []⟩ with
    | (.error e, tr) => (.error e, tr)
    | (.ok st, tr) =>
      let hit_at_k : ℚ :=
        if total ≠ 0 then (st.doc_type_hits : ℚ) / total else 0
      let avg_rank_score : ℚ :=
        if total ≠ 0 then st.rank_scores.sum / total else 0
      (.ok
        ({ num_queries := total
           hit_at_k_doc_type := hit_at_k
           avg_rank_score := avg_rank_score }, st.details), tr)

/-- Zero-pad a sub-thousand remainder to three digits. -/
def pad3 (n : Nat) : String :=
  if n < 10 then "00" ++ toString n
  else if n < 100 then "0" ++ toString n
  else toString n

/-- Python's `f"{x:.3f}"`, modelled on exact rationals: round to the
nearest thousandth (half up) and print with exactly three decimals. -/
def format3 (q : ℚ) : String :=
  let n : Int := ⌊q * 1000 + 1 / 2⌋
  let sign := if n < 0 then "-" else ""
  let m := n.natAbs
  sign ++ toString (m / 1000) ++ "." ++ pad3 (m % 1000)

/-- The title header written when the report file does not yet exist. -/
def titleHeader (label : String) : String :=
  "# Improvement of RAG-based AI system – " ++ label ++ "\n\n"

/-- The timestamped section header of one run. -/
def reportHeader (now label : String) : String :=
  "\n\n---\n\n### Evaluation Run – " ++ now ++ " (" ++ label ++ ")\n\n"

/-- Python's `repr` of a bool, as interpolated by the f-string. -/
def pyBool (b : Bool) : String := if b then "True" else "False"

/-- The body of one report section: configuration lines, the optional
`pre_k` line (only when re-ranking was enabled and `pre_k` was passed),
and the two metrics formatted to three decimal places. -/
def reportBody (db_dir eval_file : String) (k : Nat) (metrics : Metrics)
    (rerank : Bool) (pre_k : Option Nat) : String :=
  let body :=
    "**Vector DB directory:** `" ++ db_dir ++ "`  \n" ++
    "**Eval file:** `" ++ eval_file ++ "`  \n" ++
    "**Top-K (k):** `" ++ toString k ++ "`  \n" ++
    "**Rerank:** `" ++ pyBool rerank ++ "`  \n"
  let body :=
    match rerank, pre_k with
    | true, some p =>
      body ++ "**Top-pre-K (before rerank):** `" ++ toString p ++ "`  \n"
    | _, _ => body
  body ++
    "\n**Hit@" ++ toString k ++ " (doc_type):** `" ++
      format3 metrics.hit_at_k_doc_type ++ "`  \n" ++
    "**Avg RankScore@" ++ toString k ++ " (file-level):** `" ++
      format3 metrics.avg_rank_score ++ "`  \n"

/-- `append_to_report`: `old` is the report file's content (`none` when the
file does not exist, in which case it is first created holding the title
header); the run's section is then appended.  Returns the file's new
content. -/
def append_to_report (old : Option String) (now label db_dir eval_file :
    String) (k : Nat) (metrics : Metrics) (rerank : Bool)
    (pre_k : Option Nat) : String :=
  let base :=
    match old with
    | none => titleHeader label
    | some s => s
  base ++ reportHeader now label ++
    reportBody db_dir eval_file k metrics rerank pre_k

/-- Whether a trace event is a cross-encoder invocation. -/
def TraceEvent.isRerankCall : TraceEvent → Bool
  | .rerank _ => true
  | .search _ _ => false

/-! ### Concrete instances used to instantiate the theorems -/

/-- A two-document backend (the spec's worked scenario). -/
def demoBackend : Backend where
  similaritySearch := fun _ _ =>
    [{ page_content := "c1", doc_type := some "contracts",
       source := some "x/a.md" },
     { page_content := "c2", doc_type := some "products",
       source := some "y/b.md" }]
  rerankScores := fun _ ds => ds.map (fun _ => 0)

/-- A backend whose similarity search always returns zero documents. -/
def emptyBackend : Backend where
  similaritySearch := fun _ _ => []
  rerankScores := fun _ _ => []

/-- The spec's worked query Q1. -/
def demoQuery : RawQuery where
  id := some "Q1"
  question := some "what"
  expected_doc_type := some "contracts"
  expected_source_basenames := some ["a.md"]
  expected_source_basename := none

/-- A parse function for a file holding exactly `[demoQuery]`. -/
def demoParse : String → Option (List RawQuery) := fun _ => some [demoQuery]

/-- A parse function for a file holding an empty JSON array. -/
def emptyParse : String → Option (List RawQuery) := fun _ => some []

/-- First of two distinct query objects sharing the id `"Q1"`. -/
def dupIdQuery1 : RawQuery where
  id := some "Q1"
  question := some "first question"
  expected_doc_type := none
  expected_source_basenames := none
  expected_source_basename := none

/-- Second of two distinct query objects sharing the id `"Q1"`. -/
def dupIdQuery2 : RawQuery where
  id := some "Q1"
  question := some "second question"
  expected_doc_type := none
  expected_source_basenames := none
  expected_source_basename := none

/-- A parse of a valid JSON array whose two objects share one id
(`json.load` accepts such a file without complaint). -/
def dupIdParse : String → Option (List RawQuery) :=
  fun _ => some [dupIdQuery1, dupIdQuery2]

/-- A query whose `expected_source_basenames` array itself holds a
duplicate entry. -/
def dupBasenameQuery : RawQuery where
  id := some "Q2"
  question := some "q"
  expected_doc_type := none
  expected_source_basenames := some ["a.md", "a.md"]
  expected_source_basename := none

/-- A query with a legacy `expected_source_basename` not already a member
of its `expected_source_basenames` list. -/
def legacyMergeQuery : RawQuery where
  id := some "Q4"
  question := some "q"
  expected_doc_type := none
  expected_source_basenames := some ["b.md"]
  expected_source_basename := some "a.md"

/-- The detail record the demo backend produces for `demoQuery`. -/
def demoDetail1 : Detail where
  id := "Q1"
  question := "what"
  expected_doc_type := some "contracts"
  expected_source_basenames := ["a.md"]
  retrieved_doc_types := ["contracts", "products"]
  retrieved_sources := ["x/a.md", "y/b.md"]
  doc_type_hit := true
  file_hit := true
  file_rank := some 0
  rank_score := 1

/-- The metrics of the one-query demo run. -/
def demoMetrics1 : Metrics where
  num_queries := 1
  hit_at_k_doc_type := 1
  avg_rank_score := 1

/-- The detail record the demo backend produces for `dupIdQuery1`
(a query with no ground truth at all). -/
def demoDetailNoTruth : Detail where
  id := "Q1"
  question := "first question"
  expected_doc_type := none
  expected_source_basenames := []
  retrieved_doc_types := ["contracts", "products"]
  retrieved_sources := ["x/a.md", "y/b.md"]
  doc_type_hit := false
  file_hit := false
  file_rank := none
  rank_score := 0

/-- A query object lacking the `"question"` key. -/
def noQuestionQuery : RawQuery where
  id := some "Q3"
  question := none
  expected_doc_type := none
  expected_source_basenames := none
  expected_source_basename := none

/-- A parse function for a file holding exactly `[noQuestionQuery]`. -/
def noQuestionParse : String → Option (List RawQuery) :=
  fun _ => some [noQuestionQuery]

/-! ### Helper lemmas -/

theorem enumFrom_fst_lt {α : Type} :
    ∀ (l : List α) (n : Nat) (p : Nat × α),
      p ∈ l.enumFrom n → p.1 < n + l.length
  | [], _, _, h => by simp [List.enumFrom] at h
  | a :: l, n, p, h => by
    rw [List.enumFrom, List.mem_cons] at h
    rcases h with h | h
    · subst h; simp
    · have := enumFrom_fst_lt l (n + 1) p h
      simp only [List.length_cons]
      omega

theorem matchPositions_lt_length {expected sources : List String} {i : Nat}
    (h : i ∈ matchPositions expected sources) : i < sources.length := by
  unfold matchPositions at h
  rcases List.mem_map.mp h with ⟨p, hp, rfl⟩
  have hmem : p ∈ sources.enum := (List.mem_filter.mp hp).1
  have := enumFrom_fst_lt sources 0 p hmem
  simpa using this

theorem scoreFile_eq_of_min (k : Nat) (expected sources : List String)
    (j : Nat) (hexp : expected ≠ [])
    (hmin : (matchPositions expected sources).min? = some j) :
    scoreFile k expected sources = (true, some j, ((k : ℚ) - j) / k) := by
  unfold scoreFile
  rw [if_neg (by simpa [List.isEmpty_iff] using hexp), hmin]

theorem scoreFile_score_nonneg_le_one (k : Nat) (expected sources :
    List String) (hk : 0 < k) (hlen : sources.length ≤ k) :
    0 ≤ (scoreFile k expected sources).2.2 ∧
      (scoreFile k expected sources).2.2 ≤ 1 := by
  unfold scoreFile
  by_cases he : expected.isEmpty
  · simp [he]
  · rw [if_neg he]
    rcases hm : (matchPositions expected sources).min? with _ | j
    · simp
    · have hj : j < k :=
        lt_of_lt_of_le
          (matchPositions_lt_length
            (List.min?_mem (fun a b => min_choice a b) hm)) hlen
      have hkq : (0 : ℚ) < (k : ℚ) := by exact_mod_cast hk
      have hjq : (j : ℚ) < (k : ℚ) := by exact_mod_cast hj
      constructor
      · exact div_nonneg (by linarith) (le_of_lt hkq)
      · rw [div_le_one hkq]
        have : (0 : ℚ) ≤ (j : ℚ) := by positivity
        linarith

theorem typeHit_nil (e : Option String) : typeHit e [] = false := by
  cases e <;> simp [typeHit]

theorem typeHit_iff (e : Option String) (types : List String) :
    typeHit e types = true ↔ ∃ t, e = some t ∧ t ≠ "" ∧ t ∈ types := by
  cases e with
  | none => simp [typeHit]
  | some t => simp [typeHit, List.contains, List.elem_iff]

theorem scoreFile_nil_expected (k : Nat) (sources : List String) :
    scoreFile k [] sources = (false, none, 0) := by
  simp [scoreFile]

theorem matchPositions_nil (expected : List String) :
    matchPositions expected [] = [] := by
  simp [matchPositions]

theorem scoreFile_nil_sources (k : Nat) (expected : List String) :
    scoreFile k expected [] = (false, none, 0) := by
  unfold scoreFile
  by_cases he : expected.isEmpty
  · rw [if_pos he]
  · rw [if_neg he, matchPositions_nil, List.min?_nil]

theorem finishQuery_fields {q : RawQuery} {question : String} {k : Nat}
    {top_docs : List Doc} {d : Detail}
    (h : finishQuery q question k top_docs = .ok d) :
    d.id = q.id.getD "" ∧
    d.question = question ∧
    d.expected_doc_type = q.expected_doc_type ∧
    d.expected_source_basenames = mergeBasenames q ∧
    d.retrieved_doc_types = retrievedTypes top_docs ∧
    d.retrieved_sources = retrievedSources top_docs ∧
    d.doc_type_hit = typeHit q.expected_doc_type (retrievedTypes top_docs) ∧
    (d.file_hit, d.file_rank, d.rank_score) =
      scoreFile k (mergeBasenames q) (retrievedSources top_docs) := by
  unfold finishQuery at h
  cases hid : q.id with
  | none => rw [hid] at h; cases h
  | some i =>
    rw [hid] at h
    simp only [Except.ok.injEq] at h
    subst h
    simp

theorem finishQuery_err {q : RawQuery} {question : String} {k : Nat}
    {top_docs : List Doc} {e : EvalError}
    (h : finishQuery q question k top_docs = .error e) :
    q.id = none ∧ e = .keyError "id" := by
  unfold finishQuery at h
  cases hid : q.id with
  | none =>
    rw [hid] at h
    simp only [Except.error.injEq] at h
    exact ⟨rfl, h.symm⟩
  | some i => rw [hid] at h; cases h

theorem finishQuery_ok_of_some (q : RawQuery) (question : String) (k : Nat)
    (top_docs : List Doc) (i : String) (hid : q.id = some i) :
    ∃ d, finishQuery q question k top_docs = .ok d := by
  unfold finishQuery
  rw [hid]
  exact ⟨_, rfl⟩

theorem finishQuery_none_id {q : RawQuery} {question : String} {k : Nat}
    (top_docs : List Doc) (hid : q.id = none) :
    finishQuery q question k top_docs = .error (.keyError "id") := by
  unfold finishQuery
  rw [hid]

/-- `processQuery` evaluation: missing `"question"` key. -/
theorem processQuery_none_question {B : Backend} {k pre_k : Nat}
    {rerank : Bool} {q : RawQuery} (hqu : q.question = none) :
    processQuery B k pre_k rerank q = (.error (.keyError "question"), []) := by
  rw [processQuery, hqu]

/-- `processQuery` evaluation: direct (non-re-ranked) retrieval. -/
theorem processQuery_direct {B : Backend} {k pre_k : Nat} {q : RawQuery}
    {question : String} (hqu : q.question = some question) :
    processQuery B k pre_k false q =
      (finishQuery q question k (B.similaritySearch question k),
        [.search question k]) := by
  rw [processQuery, hqu]
  rfl

/-- `processQuery` evaluation: re-rank branch, zero documents, id
present. -/
theorem processQuery_rerank_empty_some {B : Backend} {k pre_k : Nat}
    {q : RawQuery} {question i : String}
    (hqu : q.question = some question) (hid : q.id = some i)
    (hemp : B.similaritySearch question pre_k = []) :
    processQuery B k pre_k true q =
      (.ok
        { id := i
          question := question
          expected_doc_type := q.expected_doc_type
          expected_source_basenames := mergeBasenames q
          retrieved_doc_types := []
          retrieved_sources := []
          doc_type_hit := false
          file_hit := false
          file_rank := none
          rank_score := 0 }, [.search question pre_k]) := by
  rw [processQuery, hqu]
  simp only [hemp, hid, List.isEmpty_nil, if_true]

/-- `processQuery` evaluation: re-rank branch, zero documents, id
absent. -/
theorem processQuery_rerank_empty_none {B : Backend} {k pre_k : Nat}
    {q : RawQuery} {question : String}
    (hqu : q.question = some question) (hid : q.id = none)
    (hemp : B.similaritySearch question pre_k = []) :
    processQuery B k pre_k true q =
      (.error (.keyError "id"), [.search question pre_k]) := by
  rw [processQuery, hqu]
  simp only [hemp, hid, List.isEmpty_nil, if_true]

/-- `processQuery` evaluation: re-rank branch with documents. -/
theorem processQuery_rerank_nonempty {B : Backend} {k pre_k : Nat}
    {q : RawQuery} {question : String}
    (hqu : q.question = some question)
    (hemp : (B.similaritySearch question pre_k).isEmpty = false) :
    processQuery B k pre_k true q =
      (finishQuery q question k
        (((sortDesc ((B.similaritySearch question pre_k).zip
            (B.rerankScores question
              (B.similaritySearch question pre_k)))).take k).map (·.1)),
        [.search question pre_k, .rerank question]) := by
  rw [processQuery, hqu]
  simp only [hemp, Bool.false_eq_true, if_false, if_true]

/-- Every successfully processed query (both branches, including the
zero-document short-circuit) yields a detail record satisfying the scorer
equations on its own fields. -/
theorem processQuery_ok_spec {B : Backend} {k pre_k : Nat} {rerank : Bool}
    {q : RawQuery} {d : Detail} {tr : List TraceEvent}
    (h : processQuery B k pre_k rerank q = (.ok d, tr)) :
    d.expected_doc_type = q.expected_doc_type ∧
    d.expected_source_basenames = mergeBasenames q ∧
    d.doc_type_hit = typeHit d.expected_doc_type d.retrieved_doc_types ∧
    (d.file_hit, d.file_rank, d.rank_score) =
      scoreFile k d.expected_source_basenames d.retrieved_sources := by
  cases hqu : q.question with
  | none =>
    rw [processQuery_none_question hqu] at h
    simp at h
  | some question =>
    cases rerank with
    | false =>
      rw [processQuery_direct hqu] at h
      have h1 : finishQuery q question k (B.similaritySearch question k) =
          .ok d := congrArg Prod.fst h
      obtain ⟨-, -, h3, h4, h5, h6, h7, h8⟩ := finishQuery_fields h1
      exact ⟨h3, h4, by rw [h7, h3, h5], by rw [h8, h4, h6]⟩
    | true =>
      cases hemp : (B.similaritySearch question pre_k).isEmpty with
      | true =>
        have hnil : B.similaritySearch question pre_k = [] :=
          List.isEmpty_iff.mp hemp
        cases hid : q.id with
        | none =>
          rw [processQuery_rerank_empty_none hqu hid hnil] at h
          simp at h
        | some i =>
          rw [processQuery_rerank_empty_some hqu hid hnil] at h
          have h1 : d = _ :=
            (Except.ok.inj (congrArg Prod.fst h)).symm
          subst h1
          refine ⟨rfl, rfl, (typeHit_nil _).symm, ?_⟩
          rw [scoreFile_nil_sources]
      | false =>
        rw [processQuery_rerank_nonempty hqu hemp] at h
        have h1 : finishQuery q question k
            (((sortDesc ((B.similaritySearch question pre_k).zip
              (B.rerankScores question
                (B.similaritySearch question pre_k)))).take k).map (·.1)) =
            .ok d := congrArg Prod.fst h
        obtain ⟨-, -, h3, h4, h5, h6, h7, h8⟩ := finishQuery_fields h1
        exact ⟨h3, h4, by rw [h7, h3, h5], by rw [h8, h4, h6]⟩

/-- A query with both required keys present always processes
successfully. -/
theorem processQuery_ok_of_keys {B : Backend} {k pre_k : Nat}
    {rerank : Bool} {q : RawQuery} (hqu : q.question.isSome)
    (hid : q.id.isSome) :
    ∃ d tr, processQuery B k pre_k rerank q = (.ok d, tr) := by
  obtain ⟨question, hq⟩ := Option.isSome_iff_exists.mp hqu
  obtain ⟨i, hi⟩ := Option.isSome_iff_exists.mp hid
  cases rerank with
  | false =>
    obtain ⟨d, hd⟩ := finishQuery_ok_of_some q question k
      (B.similaritySearch question k) i hi
    exact ⟨d, _, by rw [processQuery_direct hq, hd]⟩
  | true =>
    cases hemp : (B.similaritySearch question pre_k).isEmpty with
    | true =>
      exact ⟨_, _,
        processQuery_rerank_empty_some hq hi (List.isEmpty_iff.mp hemp)⟩
    | false =>
      obtain ⟨d, hd⟩ := finishQuery_ok_of_some q question k
        (((sortDesc ((B.similaritySearch question pre_k).zip
          (B.rerankScores question
            (B.similaritySearch question pre_k)))).take k).map (·.1)) i hi
      exact ⟨d, _, by rw [processQuery_rerank_nonempty hq hemp, hd]⟩

/-- A query lacking `"question"` or `"id"` always raises a `KeyError`
naming one of those two keys. -/
theorem processQuery_err_of_missing {B : Backend} {k pre_k : Nat}
    {rerank : Bool} {q : RawQuery}
    (h : q.question = none ∨ q.id = none) :
    ∃ key tr, (key = "question" ∨ key = "id") ∧
      processQuery B k pre_k rerank q = (.error (.keyError key), tr) := by
  cases hqu : q.question with
  | none =>
    exact ⟨"question", [], Or.inl rfl, processQuery_none_question hqu⟩
  | some question =>
    have hid : q.id = none := by
      rcases h with h | h
      · rw [hqu] at h; cases h
      · exact h
    cases rerank with
    | false =>
      refine ⟨"id", [.search question k], Or.inr rfl, ?_⟩
      rw [processQuery_direct hqu, finishQuery_none_id _ hid]
    | true =>
      cases hemp : (B.similaritySearch question pre_k).isEmpty with
      | true =>
        exact ⟨"id", [.search question pre_k], Or.inr rfl,
          processQuery_rerank_empty_none hqu hid (List.isEmpty_iff.mp hemp)⟩
      | false =>
        refine ⟨"id", [.search question pre_k, .rerank question],
          Or.inr rfl, ?_⟩
        rw [processQuery_rerank_nonempty hqu hemp, finishQuery_none_id _ hid]

/-! ### C1 -/

/-- C1: for a query with non-empty `expected_source_basenames` whose
retrieved list (length ≤ k) contains a match, the scorer sets `file_rank`
to the minimum matching index `j` and `rank_score = (k - j)/k`; `j < k`;
the score lies in `[0,1]`; index 0 scores 1, index `k-1` scores `1/k`;
moving the earliest match strictly earlier strictly increases the score;
for arbitrary retrieved lists of length ≤ k the score stays in `[0,1]`;
and when no match position exists the scorer leaves `file_hit = false`,
`file_rank` absent and `rank_score = 0`. -/
theorem C1_rank_score_formula (k j : Nat) (expected sources : List String)
    (hk : 0 < k) (hlen : sources.length ≤ k) (hexp : expected ≠ [])
    (hmin : (matchPositions expected sources).min? = some j) :
    scoreFile k expected sources = (true, some j, ((k : ℚ) - j) / k) ∧
    j < k ∧
    (0 ≤ ((k : ℚ) - j) / k ∧ ((k : ℚ) - j) / k ≤ 1) ∧
    (j = 0 → ((k : ℚ) - j) / k = 1) ∧
    (j = k - 1 → ((k : ℚ) - j) / k = 1 / k) ∧
    (∀ j' : Nat, j' < j → ((k : ℚ) - j) / k < ((k : ℚ) - j') / k) ∧
    (∀ e s : List String, s.length ≤ k →
      0 ≤ (scoreFile k e s).2.2 ∧ (scoreFile k e s).2.2 ≤ 1) ∧
    (∀ e s : List String, (matchPositions e s).min? = none →
      scoreFile k e s = (false, none, 0)) := by
  have hj : j < sources.length :=
    matchPositions_lt_length (List.min?_mem (fun a b => min_choice a b) hmin)
  have hjk : j < k := lt_of_lt_of_le hj hlen
  have hkq : (0 : ℚ) < (k : ℚ) := by exact_mod_cast hk
  have hjq : (j : ℚ) < (k : ℚ) := by exact_mod_cast hjk
  refine ⟨scoreFile_eq_of_min k expected sources j hexp hmin, hjk,
    ⟨div_nonneg (by linarith) (le_of_lt hkq), ?_⟩, ?_, ?_, ?_, ?_, ?_⟩
  · rw [div_le_one hkq]
    have : (0 : ℚ) ≤ (j : ℚ) := by positivity
    linarith
  · intro h; subst h
    simp [div_self (ne_of_gt hkq)]
  · intro h; subst h
    have h1 : (1 : ℕ) ≤ k := hk
    have : ((k - 1 : ℕ) : ℚ) = (k : ℚ) - 1 := by
      push_cast [Nat.cast_sub h1]; ring
    rw [this]; ring_nf
  · intro j' hj'
    have hj'q : (j' : ℚ) < (j : ℚ) := by exact_mod_cast hj'
    exact (div_lt_div_iff_of_pos_right hkq).mpr (by linarith)
  · intro e s hs
    exact scoreFile_score_nonneg_le_one k e s hk hs
  · intro e s hnone
    unfold scoreFile
    by_cases he : e.isEmpty
    · rw [if_pos he]
    · rw [if_neg he, hnone]

/-- Witness for C1: the spec's worked scenario (`k = 5`, ground truth
`a.md`, match at index 0). -/
theorem C1_rank_score_formula_witness :
    scoreFile 5 ["a.md"] ["x/a.md", "y/b.md"] =
      (true, some 0, ((5 : ℚ) - ((0 : ℕ) : ℚ)) / 5) :=
  (C1_rank_score_formula 5 0 ["a.md"] ["x/a.md", "y/b.md"]
    (by decide) (by decide) (by decide) (by decide)).1

theorem runQueries_nil {B : Backend} {k pre_k : Nat} {rerank : Bool}
    {st : LoopState} :
    runQueries B k pre_k rerank [] st = (.ok st, []) := rfl

theorem runQueries_cons_ok {B : Backend} {k pre_k : Nat} {rerank : Bool}
    {q : RawQuery} {qs : List RawQuery} {st : LoopState} {d : Detail}
    {tr1 : List TraceEvent}
    (hp : processQuery B k pre_k rerank q = (.ok d, tr1)) :
    runQueries B k pre_k rerank (q :: qs) st =
      ((runQueries B k pre_k rerank qs (st.push d)).1,
        tr1 ++ (runQueries B k pre_k rerank qs (st.push d)).2) := by
  rw [runQueries, hp]

theorem runQueries_cons_err {B : Backend} {k pre_k : Nat} {rerank : Bool}
    {q : RawQuery} {qs : List RawQuery} {st : LoopState} {e : EvalError}
    {tr1 : List TraceEvent}
    (hp : processQuery B k pre_k rerank q = (.error e, tr1)) :
    runQueries B k pre_k rerank (q :: qs) st = (.error e, tr1) := by
  rw [runQueries, hp]

/-- A successful loop run appends one detail per query, each produced by a
successful `processQuery`, and keeps the counters consistent with the
appended details. -/
theorem runQueries_ok_spec {B : Backend} {k pre_k : Nat} {rerank : Bool}
    (qs : List RawQuery) :
    ∀ (st st' : LoopState) (tr : List TraceEvent),
      runQueries B k pre_k rerank qs st = (.ok st', tr) →
      ∃ extra : List Detail,
        st'.details = st.details ++ extra ∧
        st'.doc_type_hits =
          st.doc_type_hits + extra.countP (·.doc_type_hit) ∧
        st'.rank_scores = st.rank_scores ++ extra.map (·.rank_score) ∧
        extra.length = qs.length ∧
        (∀ d ∈ extra, ∃ q ∈ qs, ∃ tr2,
          processQuery B k pre_k rerank q = (.ok d, tr2)) := by
  induction qs with
  | nil =>
    intro st st' tr h
    rw [runQueries_nil] at h
    injection h with h1 h2
    injection h1 with h1
    subst h1
    exact ⟨[], by simp⟩
  | cons q qs ih =>
    intro st st' tr h
    rcases hp : processQuery B k pre_k rerank q with ⟨res, tr1⟩
    cases res with
    | error e =>
      rw [runQueries_cons_err hp] at h
      injection h with h1 h2
      cases h1
    | ok d =>
      rw [runQueries_cons_ok hp] at h
      rcases hr : runQueries B k pre_k rerank qs (st.push d) with ⟨res2, tr2⟩
      rw [hr] at h
      cases res2 with
      | error e =>
        injection h with h1 h2
        cases h1
      | ok st2 =>
        have h1 : (Except.ok st2 : Except EvalError LoopState) =
            Except.ok st' := congrArg Prod.fst h
        injection h1 with h1
        subst h1
        obtain ⟨extra, he1, he2, he3, he4, he5⟩ := ih _ _ _ hr
        refine ⟨d :: extra, ?_, ?_, ?_, ?_, ?_⟩
        · rw [he1]; simp [LoopState.push]
        · rw [he2]; simp [LoopState.push, List.countP_cons]; omega
        · rw [he3]; simp [LoopState.push]
        · simp [he4]
        · intro d' hd'
          rcases List.mem_cons.mp hd' with rfl | hmem
          · exact ⟨q, List.mem_cons_self .., tr1, hp⟩
          · obtain ⟨q', hq', tr3, hp'⟩ := he5 d' hmem
            exact ⟨q', List.mem_cons_of_mem _ hq', tr3, hp'⟩

/-- When every query has both required keys, the whole loop succeeds. -/
theorem runQueries_ok_of_all (B : Backend) (k pre_k : Nat) (rerank : Bool)
    (qs : List RawQuery) :
    ∀ st : LoopState, (∀ q ∈ qs, q.question.isSome ∧ q.id.isSome) →
      ∃ st' tr, runQueries B k pre_k rerank qs st = (.ok st', tr) := by
  induction qs with
  | nil => intro st _; exact ⟨st, [], rfl⟩
  | cons q qs ih =>
    intro st hall
    obtain ⟨d, tr1, hp⟩ := processQuery_ok_of_keys
      (hall q (List.mem_cons_self ..)).1 (hall q (List.mem_cons_self ..)).2
    obtain ⟨st', tr2, hr⟩ :=
      ih (st.push d) (fun q' hq' => hall q' (List.mem_cons_of_mem _ hq'))
    exact ⟨st', tr1 ++ tr2, by rw [runQueries_cons_ok hp, hr]⟩

/-- When some query lacks a required key, the loop aborts with a
`KeyError` naming `"question"` or `"id"`. -/
theorem runQueries_err_of_missing (B : Backend) (k pre_k : Nat)
    (rerank : Bool) (qs : List RawQuery) :
    ∀ st : LoopState, (∃ q ∈ qs, q.question = none ∨ q.id = none) →
      ∃ key tr, (key = "question" ∨ key = "id") ∧
        runQueries B k pre_k rerank qs st =
          (.error (.keyError key), tr) := by
  induction qs with
  | nil => intro st h; simp at h
  | cons q qs ih =>
    intro st h
    by_cases hq : q.question = none ∨ q.id = none
    · obtain ⟨key, tr1, hkey, hp⟩ := processQuery_err_of_missing hq
      exact ⟨key, tr1, hkey, by rw [runQueries_cons_err hp]⟩
    · push_neg at hq
      obtain ⟨d, tr1, hp⟩ := processQuery_ok_of_keys
        (Option.ne_none_iff_isSome.mp hq.1)
        (Option.ne_none_iff_isSome.mp hq.2)
      have htail : ∃ q' ∈ qs, q'.question = none ∨ q'.id = none := by
        rcases h with ⟨q', hq', hmiss⟩
        rcases List.mem_cons.mp hq' with rfl | hmem
        · rcases hmiss with hm | hm
          · exact absurd hm hq.1
          · exact absurd hm hq.2
        · exact ⟨q', hmem, hmiss⟩
      obtain ⟨key, tr2, hkey, hr⟩ := ih (st.push d) htail
      exact ⟨key, tr1 ++ tr2, hkey, by rw [runQueries_cons_ok hp, hr]⟩

theorem evaluate_metrics_load_err {B : Backend} {file : Option String}
    {parse : String → Option (List RawQuery)} {k : Nat} {rerank : Bool}
    {pre_k : Nat} {e : DataFormatError}
    (h : load_eval_queries file parse = .error e) :
    evaluate_metrics B file parse k rerank pre_k =
      (.error (.dataFormat e), []) := by
  rw [evaluate_metrics, h]

theorem evaluate_metrics_ok_run {B : Backend} {file : Option String}
    {parse : String → Option (List RawQuery)} {k : Nat} {rerank : Bool}
    {pre_k : Nat} {queries : List RawQuery} {st : LoopState}
    {tr : List TraceEvent}
    (hload : load_eval_queries file parse = .ok queries)
    (hrun : runQueries B k (effPreK k pre_k rerank) rerank queries
      ⟨0, [], []⟩ = (.ok st, tr)) :
    evaluate_metrics B file parse k rerank pre_k =
      (.ok
        ({ num_queries := queries.length
           hit_at_k_doc_type :=
             if queries.length ≠ 0 then
               (st.doc_type_hits : ℚ) / queries.length else 0
           avg_rank_score :=
             if queries.length ≠ 0 then
               st.rank_scores.sum / queries.length else 0 },
          st.details), tr) := by
  rw [evaluate_metrics, hload]
  dsimp only
  rw [hrun]

theorem evaluate_metrics_err_run {B : Backend} {file : Option String}
    {parse : String → Option (List RawQuery)} {k : Nat} {rerank : Bool}
    {pre_k : Nat} {queries : List RawQuery} {e : EvalError}
    {tr : List TraceEvent}
    (hload : load_eval_queries file parse = .ok queries)
    (hrun : runQueries B k (effPreK k pre_k rerank) rerank queries
      ⟨0, [], []⟩ = (.error e, tr)) :
    evaluate_metrics B file parse k rerank pre_k = (.error e, tr) := by
  rw [evaluate_metrics, hload]
  dsimp only
  rw [hrun]

/-! ### C2 -/

/-- C2: an absent query file or one whose contents do not parse as JSON
makes `load_eval_queries` fail with a `DataFormatError`, and the whole run
aborts with that error while the backend trace is empty — no retrieval
occurred. -/
theorem C2_data_format_error_aborts (B : Backend) (file : Option String)
    (parse : String → Option (List RawQuery)) (k : Nat) (rerank : Bool)
    (pre_k : Nat)
    (h : file = none ∨ ∃ s, file = some s ∧ parse s = none) :
    ∃ e : DataFormatError,
      load_eval_queries file parse = .error e ∧
      evaluate_metrics B file parse k rerank pre_k =
        (.error (.dataFormat e), []) := by
  rcases h with rfl | ⟨s, rfl, hp⟩
  · exact ⟨.fileNotFound, rfl, evaluate_metrics_load_err rfl⟩
  · have hl : load_eval_queries (some s) parse = .error .invalidJson := by
      rw [load_eval_queries, hp]
    exact ⟨.invalidJson, hl, evaluate_metrics_load_err hl⟩

/-- Witness for C2 at a concrete input: an absent file. -/
theorem C2_data_format_error_aborts_witness :
    ∃ e : DataFormatError,
      load_eval_queries (none : Option String) demoParse = .error e ∧
      evaluate_metrics demoBackend none demoParse 5 false 25 =
        (.error (.dataFormat e), []) :=
  C2_data_format_error_aborts demoBackend none demoParse 5 false 25
    (Or.inl rfl)

/-! ### C6 -/

/-- C6: re-ranking with `pre_k < k` silently raises the effective `pre_k`
to `k`, so the run is identical (same result, same detail records, same
backend trace) to the run with `pre_k = k`. -/
theorem C6_pre_k_raised_to_k (B : Backend) (file : Option String)
    (parse : String → Option (List RawQuery)) (k pre_k : Nat)
    (h : pre_k < k) :
    evaluate_metrics B file parse k true pre_k =
      evaluate_metrics B file parse k true k := by
  rw [evaluate_metrics, evaluate_metrics]
  have h1 : effPreK k pre_k true = effPreK k k true := by
    rw [effPreK, effPreK, if_pos ⟨rfl, h⟩, if_neg]
    rintro ⟨-, hk⟩
    exact lt_irrefl _ hk
  rw [h1]

/-- Witness for C6 at a concrete input (`pre_k = 2 < k = 5`). -/
theorem C6_pre_k_raised_to_k_witness :
    evaluate_metrics demoBackend (some "eval_queries.jsonl") demoParse
        5 true 2 =
      evaluate_metrics demoBackend (some "eval_queries.jsonl") demoParse
        5 true 5 :=
  C6_pre_k_raised_to_k demoBackend (some "eval_queries.jsonl") demoParse
    5 2 (by decide)

/-! ### C7 -/

/-- C7: with zero queries the aggregator returns both metrics as `0`
(taking the guarded `else` branch rather than dividing by zero), an empty
detail list, and this is a successful run. -/
theorem C7_zero_queries (B : Backend) (file : Option String)
    (parse : String → Option (List RawQuery)) (k : Nat) (rerank : Bool)
    (pre_k : Nat) (h : load_eval_queries file parse = .ok []) :
    evaluate_metrics B file parse k rerank pre_k =
      (.ok
        ({ num_queries := 0, hit_at_k_doc_type := 0, avg_rank_score := 0 },
          []), []) := by
  rw [evaluate_metrics_ok_run h runQueries_nil]
  simp

/-- Witness for C7 at a concrete input: a file parsing to `[]`. -/
theorem C7_zero_queries_witness :
    evaluate_metrics demoBackend (some "eval_queries.jsonl") emptyParse
        5 false 25 =
      (.ok
        ({ num_queries := 0, hit_at_k_doc_type := 0, avg_rank_score := 0 },
          []), []) :=
  C7_zero_queries demoBackend (some "eval_queries.jsonl") emptyParse
    5 false 25 rfl

theorem finishQuery_nil_docs {q : RawQuery} {question : String} {k : Nat}
    {i : String} (hid : q.id = some i) :
    finishQuery q question k [] =
      .ok
        { id := i
          question := question
          expected_doc_type := q.expected_doc_type
          expected_source_basenames := mergeBasenames q
          retrieved_doc_types := []
          retrieved_sources := []
          doc_type_hit := false
          file_hit := false
          file_rank := none
          rank_score := 0 } := by
  unfold finishQuery
  rw [hid]
  simp [retrievedTypes, retrievedSources, typeHit_nil, scoreFile_nil_sources]

/-! ### C3 -/

/-- C3: when the similarity search returns zero documents, the query is
recorded with `rank_score = 0`, empty retrieved-type and retrieved-source
lists, `doc_type_hit = false`, `file_hit = false`, `file_rank` absent, the
loop continues (the result is `ok`, not an error), and the trace holds the
single search call and no cross-encoder invocation — in the re-rank branch
(where the explicit short-circuit lives) and in the direct branch alike. -/
theorem C3_zero_documents_short_circuit (B : Backend) (k pre_k : Nat)
    (q : RawQuery) (question i : String)
    (hqu : q.question = some question) (hid : q.id = some i)
    (hre : B.similaritySearch question pre_k = [])
    (hdi : B.similaritySearch question k = []) :
    processQuery B k pre_k true q =
      (.ok
        { id := i
          question := question
          expected_doc_type := q.expected_doc_type
          expected_source_basenames := mergeBasenames q
          retrieved_doc_types := []
          retrieved_sources := []
          doc_type_hit := false
          file_hit := false
          file_rank := none
          rank_score := 0 }, [.search question pre_k]) ∧
    processQuery B k pre_k false q =
      (.ok
        { id := i
          question := question
          expected_doc_type := q.expected_doc_type
          expected_source_basenames := mergeBasenames q
          retrieved_doc_types := []
          retrieved_sources := []
          doc_type_hit := false
          file_hit := false
          file_rank := none
          rank_score := 0 }, [.search question k]) ∧
    [TraceEvent.search question pre_k].countP TraceEvent.isRerankCall = 0 ∧
    [TraceEvent.search question k].countP TraceEvent.isRerankCall = 0 := by
  refine ⟨?_, ?_, rfl, rfl⟩
  · rw [processQuery_rerank_empty_some hqu hid hre]
  · rw [processQuery_direct hqu, hdi, finishQuery_nil_docs hid]

/-- Witness for C3: the always-empty backend on the demo query. -/
theorem C3_zero_documents_short_circuit_witness :
    processQuery emptyBackend 5 25 true demoQuery =
      (.ok
        { id := "Q1"
          question := "what"
          expected_doc_type := demoQuery.expected_doc_type
          expected_source_basenames := mergeBasenames demoQuery
          retrieved_doc_types := []
          retrieved_sources := []
          doc_type_hit := false
          file_hit := false
          file_rank := none
          rank_score := 0 }, [.search "what" 25]) ∧
    processQuery emptyBackend 5 25 false demoQuery =
      (.ok
        { id := "Q1"
          question := "what"
          expected_doc_type := demoQuery.expected_doc_type
          expected_source_basenames := mergeBasenames demoQuery
          retrieved_doc_types := []
          retrieved_sources := []
          doc_type_hit := false
          file_hit := false
          file_rank := none
          rank_score := 0 }, [.search "what" 5]) ∧
    [TraceEvent.search "what" 25].countP TraceEvent.isRerankCall = 0 ∧
    [TraceEvent.search "what" 5].countP TraceEvent.isRerankCall = 0 :=
  C3_zero_documents_short_circuit emptyBackend 5 25 demoQuery "what" "Q1"
    rfl rfl rfl rfl

/-! ### C4 -/

/-- C4: a query whose merged `expected_source_basenames` is empty yields
`file_hit = false`, no `file_rank`, and `rank_score = 0`, whatever the
retrieved documents are. -/
theorem C4_empty_basenames_abstain (B : Backend) (k pre_k : Nat)
    (rerank : Bool) (q : RawQuery) (d : Detail) (tr : List TraceEvent)
    (hq : mergeBasenames q = [])
    (h : processQuery B k pre_k rerank q = (.ok d, tr)) :
    d.file_hit = false ∧ d.file_rank = none ∧ d.rank_score = 0 := by
  obtain ⟨-, h2, -, h4⟩ := processQuery_ok_spec h
  rw [h2, hq, scoreFile_nil_expected] at h4
  exact ⟨congrArg (·.1) h4, congrArg (·.2.1) h4, congrArg (·.2.2) h4⟩

/-- Witness for C4: a ground-truth-free query against the two-document
backend. -/
theorem C4_empty_basenames_abstain_witness :
    demoDetailNoTruth.file_hit = false ∧
    demoDetailNoTruth.file_rank = none ∧
    demoDetailNoTruth.rank_score = 0 :=
  C4_empty_basenames_abstain demoBackend 5 25 false dupIdQuery1
    demoDetailNoTruth [.search "first question" 5] (by decide) rfl

/-! ### C5 -/

/-- C5 counterexample: loading performs no validation.  A valid JSON batch
whose two distinct query objects share one id loads successfully, and a
query whose `expected_source_basenames` array already holds a duplicate
keeps the duplicate after the legacy merge — so neither id uniqueness nor
duplicate-freeness holds after loading. -/
theorem C5_counterexample :
    (load_eval_queries (some "file contents not inspected") dupIdParse =
      .ok [dupIdQuery1, dupIdQuery2] ∧
     dupIdQuery1.id = dupIdQuery2.id ∧ dupIdQuery1 ≠ dupIdQuery2) ∧
    ¬ (mergeBasenames dupBasenameQuery).Nodup :=
  ⟨⟨rfl, rfl, by decide⟩, by decide⟩

/-- C5 amended: the loader enforces neither id uniqueness nor
duplicate-freeness; what does hold is that the legacy-field merge never
introduces a duplicate: if a query's `expected_source_basenames` input
list is duplicate-free, it stays duplicate-free after the merge. -/
theorem C5_merge_preserves_nodup (q : RawQuery)
    (h : (q.expected_source_basenames.getD []).Nodup) :
    (mergeBasenames q).Nodup := by
  cases hs : q.expected_source_basename with
  | none => simp only [mergeBasenames, hs]; exact h
  | some s =>
    simp only [mergeBasenames, hs]
    split
    · next hc =>
      have hns : s ∉ q.expected_source_basenames.getD [] := by
        intro hm
        exact hc.2 (by simpa [List.contains, List.elem_iff] using hm)
      simp [List.nodup_append, h, hns]
    · exact h

/-- Witness for the amended C5: merging a fresh legacy basename into a
duplicate-free list. -/
theorem C5_merge_preserves_nodup_witness :
    (mergeBasenames legacyMergeQuery).Nodup :=
  C5_merge_preserves_nodup legacyMergeQuery (by decide)

/-! ### C9 -/

/-- C9: the report emitter is append-only.  With an existing file the new
content is exactly the old content followed by this run's section, so
every byte present before the run is preserved (the old content is a
prefix of the new).  With no existing file the content is the title header
followed by the same section.  When re-ranking is off, the `pre_k`
argument does not influence the section. -/
theorem C9_report_append_only (now label db_dir eval_file : String)
    (k : Nat) (metrics : Metrics) (rerank : Bool) (pre_k : Option Nat) :
    (∀ old : String,
      append_to_report (some old) now label db_dir eval_file k metrics
          rerank pre_k =
        old ++ reportHeader now label ++
          reportBody db_dir eval_file k metrics rerank pre_k) ∧
    append_to_report none now label db_dir eval_file k metrics rerank
        pre_k =
      titleHeader label ++ reportHeader now label ++
        reportBody db_dir eval_file k metrics rerank pre_k ∧
    (∀ old : String, ∃ appended : String,
      append_to_report (some old) now label db_dir eval_file k metrics
        rerank pre_k = old ++ appended) ∧
    (∀ p : Nat, reportBody db_dir eval_file k metrics false (some p) =
      reportBody db_dir eval_file k metrics false none) := by
  refine ⟨fun old => ?_, ?_, fun old =>
    ⟨reportHeader now label ++
      reportBody db_dir eval_file k metrics rerank pre_k, ?_⟩,
    fun p => ?_⟩
  · rfl
  · rfl
  · rw [← String.append_assoc]; rfl
  · rfl

/-- Inversion: a successful evaluation comes from a successful load and a
successful loop run, with the metrics computed by the guarded
divisions. -/
theorem evaluate_metrics_ok_inv {B : Backend} {file : Option String}
    {parse : String → Option (List RawQuery)} {k : Nat} {rerank : Bool}
    {pre_k : Nat} {m : Metrics} {details : List Detail}
    {tr : List TraceEvent}
    (h : evaluate_metrics B file parse k rerank pre_k =
      (.ok (m, details), tr)) :
    ∃ queries st,
      load_eval_queries file parse = .ok queries ∧
      runQueries B k (effPreK k pre_k rerank) rerank queries ⟨0, [], []⟩ =
        (.ok st, tr) ∧
      details = st.details ∧
      m = { num_queries := queries.length
            hit_at_k_doc_type :=
              if queries.length ≠ 0 then
                (st.doc_type_hits : ℚ) / queries.length else 0
            avg_rank_score :=
              if queries.length ≠ 0 then
                st.rank_scores.sum / queries.length else 0 } := by
  cases hload : load_eval_queries file parse with
  | error e =>
    rw [evaluate_metrics_load_err hload] at h
    simp at h
  | ok queries =>
    rcases hrun : runQueries B k (effPreK k pre_k rerank) rerank queries
      ⟨0, [], []⟩ with ⟨res, tr2⟩
    cases res with
    | error e =>
      rw [evaluate_metrics_err_run hload hrun] at h
      simp at h
    | ok st =>
      rw [evaluate_metrics_ok_run hload hrun] at h
      injection h with h1 h2
      injection h1 with h1
      injection h1 with hm hd
      subst h2
      exact ⟨queries, st, rfl, hrun, hd.symm, hm.symm⟩

/-! ### C8 -/

/-- C8: for every evaluated query, `doc_type_hit` is true iff
`expected_doc_type` is set to a non-empty string that exactly equals the
`doc_type` of at least one retrieved document (at any position); and
`hit_at_k_doc_type` equals the number of queries with `doc_type_hit`
divided by `num_queries` (the quotient read with the `0 / 0 = 0`
convention that the guarded division produces). -/
theorem C8_doc_type_hit_iff (B : Backend) (file : Option String)
    (parse : String → Option (List RawQuery)) (k : Nat) (rerank : Bool)
    (pre_k : Nat) (m : Metrics) (details : List Detail)
    (tr : List TraceEvent)
    (h : evaluate_metrics B file parse k rerank pre_k =
      (.ok (m, details), tr)) :
    (∀ d ∈ details, (d.doc_type_hit = true ↔
      ∃ t, d.expected_doc_type = some t ∧ t ≠ "" ∧
        t ∈ d.retrieved_doc_types)) ∧
    m.hit_at_k_doc_type =
      (details.countP (·.doc_type_hit) : ℚ) / (m.num_queries : ℚ) := by
  obtain ⟨queries, st, hload, hrun, hdet, hm⟩ := evaluate_metrics_ok_inv h
  obtain ⟨extra, he1, he2, he3, he4, he5⟩ :=
    runQueries_ok_spec queries _ _ _ hrun
  have hdetails : details = extra := by
    rw [hdet, he1]
    simp
  constructor
  · intro d hd
    obtain ⟨q, -, tr2, hp⟩ := he5 d (hdetails ▸ hd)
    obtain ⟨-, -, h3, -⟩ := processQuery_ok_spec hp
    rw [h3]
    exact typeHit_iff _ _
  · have hhits : st.doc_type_hits = details.countP (·.doc_type_hit) := by
      rw [he2, hdetails]
      simp
    rw [hm, hdetails]
    by_cases hlen : queries.length = 0
    · have hx : extra = [] := by
        rw [← List.length_eq_zero]
        omega
      subst hx
      simp [hlen]
    · simp only [hlen, ne_eq, not_false_iff, if_pos, if_true]
      rw [← hdetails, hhits, hdetails]

/-- Witness for C8: the one-query demo run. -/
theorem C8_doc_type_hit_iff_witness :
    (∀ d ∈ [demoDetail1], (d.doc_type_hit = true ↔
      ∃ t, d.expected_doc_type = some t ∧ t ≠ "" ∧
        t ∈ d.retrieved_doc_types)) ∧
    demoMetrics1.hit_at_k_doc_type =
      (([demoDetail1].countP (·.doc_type_hit) : ℚ) /
        (demoMetrics1.num_queries : ℚ)) :=
  C8_doc_type_hit_iff demoBackend (some "eval_queries.jsonl") demoParse
    5 false 25 demoMetrics1 [demoDetail1] [.search "what" 5]
    (by
      have h1 : retrievedSources (demoBackend.similaritySearch "what" 5) =
          ["x/a.md", "y/b.md"] := rfl
      have h2 : retrievedTypes (demoBackend.similaritySearch "what" 5) =
          ["contracts", "products"] := rfl
      have h3 : mergeBasenames demoQuery = ["a.md"] := rfl
      have h4 : typeHit (some "contracts") ["contracts", "products"] =
          true := rfl
      have hq : demoQuery.question = some "what" := rfl
      have hid : demoQuery.id = some "Q1" := rfl
      have hedt : demoQuery.expected_doc_type = some "contracts" := rfl
      have h0 : scoreFile 5 ["a.md"] ["x/a.md", "y/b.md"] =
          (true, some 0, (((5 : ℕ) : ℚ) - ((0 : ℕ) : ℚ)) / ((5 : ℕ) : ℚ)) :=
        scoreFile_eq_of_min 5 ["a.md"] ["x/a.md", "y/b.md"] 0
          (by decide) (by decide)
      norm_num [evaluate_metrics, load_eval_queries, demoParse, runQueries,
        processQuery, finishQuery, LoopState.push, demoMetrics1,
        demoDetail1, effPreK, h1, h2, h3, h4, hq, hid, hedt, h0])

/-! ### C10 -/

/-- C10: after a successful load, a batch in which some query object lacks
the `"question"` or the `"id"` key makes the whole run abort with a
`KeyError` naming one of those two keys (no per-query recovery), while a
batch in which every query has both keys always evaluates successfully —
the remaining fields may be absent without error. -/
theorem C10_required_keys (B : Backend) (file : Option String)
    (parse : String → Option (List RawQuery)) (k : Nat) (rerank : Bool)
    (pre_k : Nat) (queries : List RawQuery)
    (hload : load_eval_queries file parse = .ok queries) :
    ((∀ q ∈ queries, q.question.isSome ∧ q.id.isSome) →
      ∃ m details tr, evaluate_metrics B file parse k rerank pre_k =
        (.ok (m, details), tr)) ∧
    ((∃ q ∈ queries, q.question = none ∨ q.id = none) →
      ∃ key tr, (key = "question" ∨ key = "id") ∧
        evaluate_metrics B file parse k rerank pre_k =
          (.error (.keyError key), tr)) := by
  constructor
  · intro hall
    obtain ⟨st, tr, hrun⟩ := runQueries_ok_of_all B k
      (effPreK k pre_k rerank) rerank queries ⟨0, [], []⟩ hall
    exact ⟨_, _, _, evaluate_metrics_ok_run hload hrun⟩
  · intro hmiss
    obtain ⟨key, tr, hkey, hrun⟩ := runQueries_err_of_missing B k
      (effPreK k pre_k rerank) rerank queries ⟨0, [], []⟩ hmiss
    exact ⟨key, tr, hkey, evaluate_metrics_err_run hload hrun⟩

/-- Witness for C10: a one-query batch missing the `"question"` key. -/
theorem C10_required_keys_witness :
    ((∀ q ∈ [noQuestionQuery], q.question.isSome ∧ q.id.isSome) →
      ∃ m details tr,
        evaluate_metrics demoBackend (some "eval_queries.jsonl")
          noQuestionParse 5 false 25 = (.ok (m, details), tr)) ∧
    ((∃ q ∈ [noQuestionQuery], q.question = none ∨ q.id = none) →
      ∃ key tr, (key = "question" ∨ key = "id") ∧
        evaluate_metrics demoBackend (some "eval_queries.jsonl")
          noQuestionParse 5 false 25 = (.error (.keyError key), tr)) :=
  C10_required_keys demoBackend (some "eval_queries.jsonl")
    noQuestionParse 5 false 25 [noQuestionQuery] rfl

end EvalRetrieval
